import Mathlib

/-!
Verification development for the DeepHall training control loop
(`deephall/train.py`) and its dataclass configuration loader
(`deephall/config.py`).

The Python code is shallowly embedded: machine floats appear only through
their IEEE classification (finite / infinite / NaN), wall-clock instants are
rationals, Python `int` arithmetic is `Int`/`Nat`, and fallible operations
return `Except` or carry an explicit success flag.  Components of the
repository that are referenced by `train.py` but whose files are not part of
the sources at hand (`deephall/log.py`, `deephall/mcmc.py`) are modelled from
the specification and marked as such in their doc comments.
-/

namespace DeepHall

/-- IEEE-style classification of a machine float: a finite value (carried as a
rational), positive or negative infinity, or NaN.  The training loop only ever
classifies statistics (`jnp.isnan`), so no float arithmetic is needed. -/
inductive FloatVal where
  | fin (q : ℚ)
  | inf
  | neginf
  | nan
deriving DecidableEq

/-- Classification used by `jnp.isnan`. -/
def FloatVal.isNan : FloatVal → Bool
  | .nan => true
  | _ => false

/-- Classification used by `jnp.isfinite`. -/
def FloatVal.isFinite : FloatVal → Bool
  | .fin _ => true
  | _ => false

/-- A complex statistic value: real and imaginary parts, each a classified
machine float.  `stats["energy"]` holds one such value per execution unit. -/
structure ComplexFloat where
  re : FloatVal
  im : FloatVal
deriving DecidableEq

/-- `jnp.isnan(stats["energy"].real).any()` over the per-unit energy values
(train.py line 170 and line 181). -/
def isnan_energy_any (stats : List ComplexFloat) : Bool :=
  stats.any fun e => e.re.isNan

/-- Optimizer names from `config.py` (`class OptimizerName(StrEnum)`). -/
inductive OptimizerName where
  | adam
  | kfac
  | none
deriving DecidableEq

/-- The `Log` dataclass of `config.py` (fields used by the training loop).
`save_path`/`restore_path` are `str | None`, the intervals are Python ints. -/
structure Log where
  save_path : Option String := Option.none
  restore_path : Option String := Option.none
  save_time_interval : ℤ := 600
  save_step_interval : ℕ := 1000
  initial_energy : Bool := true
deriving DecidableEq

/-- The `Optim` dataclass of `config.py` (fields used by the training loop).
`optimizer : OptimizerName | None = OptimizerName.kfac`. -/
structure Optim where
  iterations : ℕ := 1000
  optimizer : Option OptimizerName := some OptimizerName.kfac
deriving DecidableEq

/-- The `MCMC` dataclass of `config.py` (fields used by the training loop). -/
structure MCMC where
  steps : ℕ := 10
  width : ℚ := 1/10
  burn_in : ℕ := 200
  adapt_frequency : ℕ := 100
deriving DecidableEq

/-- The `Config` dataclass of `config.py`, restricted to the parts the control
loop reads.  The `system` and `network` sub-configurations are opaque to the
loop and are omitted. -/
structure Config where
  batch_size : ℕ := 3360
  mcmc : MCMC := {}
  optim : Optim := {}
  log : Log := {}
deriving DecidableEq

/-- The checkpoint condition of `train.py` lines 169-177:

`jnp.isnan(stats["energy"].real).any() or step == cfg.optim.iterations - 1 or
killer.kill_now or (current_time - last_save_time > cfg.log.save_time_interval
and (step + 1) % cfg.log.save_step_interval == 0)`. -/
def save_condition (cfg : Config) (stats : List ComplexFloat) (step : ℕ)
    (kill_now : Bool) (current_time last_save_time : ℚ) : Bool :=
  isnan_energy_any stats
  || decide ((step : ℤ) = (cfg.optim.iterations : ℤ) - 1)
  || kill_now
  || (decide ((cfg.log.save_time_interval : ℚ) < current_time - last_save_time)
      && decide ((step + 1) % cfg.log.save_step_interval = 0))

/-- The abort condition of `train.py` line 181:
`killer.kill_now or jnp.isnan(stats["energy"].real).any()`. -/
def abort_condition (stats : List ComplexFloat) (kill_now : Bool) : Bool :=
  kill_now || isnan_energy_any stats

/-- Modelled from the spec: `LogManager.save_checkpoint` lives in
`deephall/log.py`, which is not among the sources at hand.  Per spec section
4.3, `maybe_save` persists only when a save location is configured (condition
(a)); a forced flush overrides conditions (b)/(c) but not (a). -/
def save_checkpoint_persists (log : Log) : Bool :=
  log.save_path.isSome

/-- What one execution of the post-training-step tail of the loop body
(train.py lines 169-182) does.  `save_raised` records that the (modelled)
checkpoint write was attempted and raised. -/
structure StepOutcome where
  save_branch : Bool
  persisted : Bool
  save_raised : Bool
  new_last_save : ℚ
  aborted : Bool
deriving DecidableEq

/-- The tail of one loop-body iteration of `train` (train.py lines 163-182):
evaluate the save condition; if it holds, first set `last_save_time` to the
current time (line 178) and then attempt `log_manager.save_checkpoint` (line
180), whose success is the external outcome `save_ok`; finally evaluate the
abort condition (line 181). -/
def post_step_check (cfg : Config) (stats : List ComplexFloat) (step : ℕ)
    (kill_now : Bool) (current_time last_save_time : ℚ) (save_ok : Bool) :
    StepOutcome :=
  let c := save_condition cfg stats step kill_now current_time last_save_time
  let attempted := c && save_checkpoint_persists cfg.log
  { save_branch := c
    persisted := attempted && save_ok
    save_raised := attempted && !save_ok
    new_last_save := if c then current_time else last_save_time
    aborted := abort_condition stats kill_now }

/-- How a run of the main loop of `train` ends: the iteration budget is
consumed, `raise SystemExit` fires (train.py line 182), or the checkpoint
write raises first (so line 182 is never reached). -/
inductive RunEnd where
  | completed
  | aborted (step : ℕ)
  | save_error (step : ℕ)
deriving DecidableEq

/-- The checkpoint/abort behaviour of the main loop of `train` (train.py
lines 149-182), driven by external streams: per-step statistics, wall-clock
readings, the signal flag, and the success of each attempted checkpoint
write.  The writer calls are omitted; `fuel` counts the remaining iterations
of `range(initial_step, cfg.optim.iterations)`. -/
def run_loop (cfg : Config) (stats : ℕ → List ComplexFloat) (clock : ℕ → ℚ)
    (kill : ℕ → Bool) (save_ok : ℕ → Bool) :
    ℕ → ℕ → ℚ → List (ℕ × StepOutcome) × RunEnd
  | _, 0, _ => ([], RunEnd.completed)
  | step, fuel + 1, last_save_time =>
    let o := post_step_check cfg (stats step) step (kill step) (clock step)
      last_save_time (save_ok step)
    if o.save_raised then ([(step, o)], RunEnd.save_error step)
    else if o.aborted then ([(step, o)], RunEnd.aborted step)
    else
      let r := run_loop cfg stats clock kill save_ok (step + 1) fuel
        o.new_last_save
      ((step, o) :: r.1, r.2)

/-- The main loop of `train` entered at `initial_step`, with `t0` the value
`time.time()` recorded at line 145 before the loop. -/
def run_train (cfg : Config) (stats : ℕ → List ComplexFloat) (clock : ℕ → ℚ)
    (kill : ℕ → Bool) (save_ok : ℕ → Bool) (initial_step : ℕ) (t0 : ℚ) :
    List (ℕ × StepOutcome) × RunEnd :=
  run_loop cfg stats clock kill save_ok initial_step
    (cfg.optim.iterations - initial_step) t0

/-- The string `"=" * 30 + " ABORT " + "=" * 30` of train.py line 182. -/
def abort_line : String :=
  String.mk (List.replicate 30 '=') ++ " ABORT " ++
    String.mk (List.replicate 30 '=')

/-- The message carried by `raise SystemExit` at train.py lines 181-182, as a
function of the two possible causes (signal flag, NaN energy); `none` when
the process does not abort. -/
def train_abort_message (kill_now nan_energy : Bool) : Option String :=
  if kill_now || nan_energy then some abort_line else Option.none

/-- The state owned by a `GracefulKiller` (train.py lines 187-204) together
with the process signal table it manipulates: the stop flag, the currently
installed handlers for SIGINT/SIGTERM, and the previously installed handlers
remembered by `__init__`.  `H` is the opaque type of OS signal handlers. -/
structure KillerState (H : Type) where
  kill_now : Bool
  handler_int : H
  handler_term : H
  original_int : H
  original_term : H

/-- `GracefulKiller.__init__`: install `exit_gracefully` (the value
`graceful`) for both signals and remember the previous handlers (train.py
lines 192-194); the class attribute `kill_now` starts `False`. -/
def GracefulKiller.init {H : Type} (prev_int prev_term graceful : H) :
    KillerState H :=
  { kill_now := false
    handler_int := graceful
    handler_term := graceful
    original_int := prev_int
    original_term := prev_term }

/-- `GracefulKiller.exit_gracefully` (train.py lines 196-204): if the flag is
already set, return immediately; otherwise restore both original handlers and
set the flag.  It is a total function: no exception is raised. -/
def exit_gracefully {H : Type} (s : KillerState H) : KillerState H :=
  if s.kill_now then s
  else
    { s with
      kill_now := true
      handler_int := s.original_int
      handler_term := s.original_term }

/-- The warm-start override of `train_loop` (train.py lines 95-100): the
restored step is forced to 0 exactly when the optimizer is `none`, a restore
path is configured, and it differs from the save path. -/
def resolve_initial_step (cfg : Config) (initial_step : ℕ) : ℕ :=
  if cfg.optim.optimizer = some OptimizerName.none
      ∧ cfg.log.restore_path ≠ Option.none
      ∧ cfg.log.restore_path ≠ cfg.log.save_path
  then 0 else initial_step

/-- The `CheckpointState` named tuple restored from / written to checkpoints
(fields as in `deephall/log.py` usage within train.py): parameters, sampled
configurations, optional optimizer state, and the MCMC width.  All four are
opaque to the override logic. -/
structure CheckpointState (P D O W : Type) where
  params : P
  data : D
  opt_state : Option O
  mcmc_width : W

/-- Lines 91-100 of train.py as one step: given the restored pair
`(initial_step, state)`, apply the warm-start override, which touches only
the step. -/
def train_loop_resolve {P D O W : Type} (cfg : Config)
    (restored : ℕ × CheckpointState P D O W) : ℕ × CheckpointState P D O W :=
  (resolve_initial_step cfg restored.1, restored.2)

/-- Events that could occur inside the pre-loop burn-in block of `train_loop`
(train.py lines 108-112).  The block's body contains only sampler calls; the
other two constructors exist so that their absence is a statable property. -/
inductive BurnEvent where
  | sampler
  | controller
  | save
deriving DecidableEq

/-- The body of the burn-in `for` loop (train.py lines 109-111): each round
splits the key and runs `pmap_mcmc_step`, which together advance the threaded
`(sharded_key, data)` value by one application of `f`; one sampler event is
recorded per round. -/
def burn_in_loop {α : Type} (f : α → α) : ℕ → α → α × List BurnEvent
  | 0, d => (d, [])
  | n + 1, d =>
    let r := burn_in_loop f n (f d)
    (r.1, BurnEvent.sampler :: r.2)

/-- The guarded burn-in block of `train_loop` (train.py lines 108-112): it
runs only when `initial_step == 0`, for `cfg.mcmc.burn_in` rounds. -/
def burn_in_phase {α : Type} (initial_step burn_in : ℕ) (f : α → α) (d : α) :
    α × List BurnEvent :=
  if initial_step = 0 then burn_in_loop f burn_in d else (d, [])

/-- Modelled from the spec: `mcmc.update_mcmc_width` lives in
`deephall/mcmc.py`, which is not among the sources at hand.  Per spec section
4.2 the controller writes `latest_acceptance` into the window slot
`iteration_index mod window_size`, and exactly when
`(iteration_index + 1) mod window_size == 0` rescales the width smoothly
around the target acceptance rate 1/2 (the exact smooth factor is not
specified; a fixed multiplicative factor stands in for it). -/
def update_mcmc_width (t : ℕ) (width : ℚ) (adapt_frequency : ℕ)
    (pmove : ℚ) (pmoves : List ℚ) : ℚ × List ℚ :=
  let pmoves2 := pmoves.set (t % adapt_frequency) pmove
  if (t + 1) % adapt_frequency = 0 then
    if pmoves2.sum / (adapt_frequency : ℚ) > 1/2 then
      (width * (11/10), pmoves2)
    else
      (width * (10/11), pmoves2)
  else (width, pmoves2)

/-- The controller call made by `train_loop` (train.py lines 128-134): the
iteration index passed to `update_mcmc_width` is `step - initial_step`. -/
def train_loop_update_call (step initial_step : ℕ) (width : ℚ)
    (adapt_frequency : ℕ) (pmove : ℚ) (pmoves : List ℚ) : ℚ × List ℚ :=
  update_mcmc_width (step - initial_step) width adapt_frequency pmove pmoves

/-! ### `config.py` — the generic dataclass loader `from_dict` -/

/-- A Python runtime value as far as `from_dict` (config.py lines 30-66) can
observe it: an opaque non-dict value, a dictionary, or a constructed
dataclass instance (class name plus the keyword arguments it was built
from). -/
inductive PyVal where
  | atom (n : ℤ)
  | dict (entries : List (String × PyVal))
  | obj (clsName : String) (kwargs : List (String × PyVal))

/-- A Python type as far as `from_dict` can observe it: either not a
dataclass (`is_dataclass` is false; only its `__name__` matters), or a
dataclass with named, typed fields, each knowing whether it has a default
value. -/
inductive PyType where
  | prim (name : String)
  | dataclass (name : String) (flds : List (String × PyType × Bool))

/-- `cls.__name__`. -/
def PyType.name : PyType → String
  | .prim n => n
  | .dataclass n _ => n

/-- The Python exceptions `from_dict` can produce or encounter. -/
inductive PyErr where
  | valueError (msg : String)
  | typeError (msg : String)
deriving DecidableEq

/-- `str(e)` for the exceptions above. -/
def PyErr.msg : PyErr → String
  | .valueError m => m
  | .typeError m => m

/-- The wrapping performed by the `except` clause of `from_dict`
(config.py line 66):
`raise ValueError(f"Error converting dictionary to ...")`. -/
def wrapErr (clsName : String) (e : PyErr) : PyErr :=
  .valueError ("Error converting dictionary to " ++ clsName ++ ": " ++ e.msg)

/-- Lookup in the `fieldtypes` mapping built at config.py line 44 (`f in
fieldtypes` and `fieldtypes[f]`). -/
def fieldLookup : List (String × PyType × Bool) → String →
    Option (PyType × Bool)
  | [], _ => Option.none
  | (g, ty, b) :: tl, f => if f = g then some (ty, b) else fieldLookup tl f

theorem fieldLookup_sizeOf {flds : List (String × PyType × Bool)}
    {f : String} {ty : PyType} {b : Bool}
    (h : fieldLookup flds f = some (ty, b)) : sizeOf ty < sizeOf flds := by
  induction flds with
  | nil => simp [fieldLookup] at h
  | cons hd tl ih =>
    obtain ⟨g, ty0, b0⟩ := hd
    rw [fieldLookup] at h
    split at h
    · simp only [Option.some.injEq, Prod.mk.injEq] at h
      obtain ⟨h1, _h2⟩ := h
      subst h1
      simp only [List.cons.sizeOf_spec, Prod.mk.sizeOf_spec]
      omega
    · have := ih h
      simp only [List.cons.sizeOf_spec, Prod.mk.sizeOf_spec]
      omega

/-- The dataclass constructor call `cls(**kwargs)` (config.py line 51): it
fails with a `TypeError` iff some field without a default value is missing
from the keyword arguments; nothing else about construction can fail. -/
def constructObj (name : String) (flds : List (String × PyType × Bool))
    (kwargs : List (String × PyVal)) : Except PyErr PyVal :=
  if flds.all fun fd => fd.2.2 || (kwargs.lookup fd.1).isSome then
    .ok (.obj name kwargs)
  else
    .error (.typeError (name ++ " missing required argument"))

mutual

/-- `from_dict` of config.py lines 30-66.  The `try` body: `fields(cls)`
raises `TypeError` when `cls` is not a dataclass; iterating a non-dict
argument raises `TypeError`; the dict comprehension of lines 51-63 converts
the entries; `cls(**kwargs)` constructs the instance.  Any of these errors is
wrapped by the `except` clause into a `ValueError` naming `cls.__name__`. -/
def from_dict : PyType → PyVal → Except PyErr PyVal
  | .prim n, _ =>
    .error (wrapErr n (.typeError ("fields expects a dataclass, got " ++ n)))
  | .dataclass n flds, .dict entries =>
    match convertEntries flds entries with
    | .error e => .error (wrapErr n e)
    | .ok kwargs =>
      match constructObj n flds kwargs with
      | .error e => .error (wrapErr n e)
      | .ok v => .ok v
  | .dataclass n _, _ =>
    .error (wrapErr n (.typeError "argument is not iterable"))
termination_by ty v => (sizeOf ty, 0)
decreasing_by
  try simp_wf
  apply Prod.Lex.left
  try simp only [PyType.dataclass.sizeOf_spec]
  omega

/-- The dict comprehension of config.py lines 51-63, in dict iteration
order: keys absent from `fieldtypes` are skipped (`if f in fieldtypes`,
"allow extra keys"); for a dataclass-typed field the value is converted by a
recursive `from_dict` call; otherwise `dikt[f]` is taken as is. -/
def convertEntries (flds : List (String × PyType × Bool)) :
    List (String × PyVal) → Except PyErr (List (String × PyVal))
  | [] => .ok []
  | (f, v) :: rest =>
    match _h : fieldLookup flds f with
    | Option.none => convertEntries flds rest
    | some (.prim _, _b) =>
      match convertEntries flds rest with
      | .error e => .error e
      | .ok tail => .ok ((f, v) :: tail)
    | some (.dataclass n2 flds2, _b) =>
      match from_dict (.dataclass n2 flds2) v with
      | .error e => .error e
      | .ok cv =>
        match convertEntries flds rest with
        | .error e => .error e
        | .ok tail => .ok ((f, cv) :: tail)
termination_by entries => (sizeOf flds, entries.length + 1)
decreasing_by
  · try simp_wf
    apply Prod.Lex.right
    omega
  · try simp_wf
    apply Prod.Lex.right
    omega
  · try simp_wf
    apply Prod.Lex.left
    have hlt := fieldLookup_sizeOf _h
    simp only [PyType.dataclass.sizeOf_spec] at hlt
    omega
  · try simp_wf
    apply Prod.Lex.right
    omega

end

/-! ### Theorems -/

theorem abort_condition_save (cfg : Config) (stats : List ComplexFloat)
    (step : ℕ) (kill_now : Bool) (current_time last_save_time : ℚ)
    (h : abort_condition stats kill_now = true) :
    save_condition cfg stats step kill_now current_time last_save_time
      = true := by
  unfold abort_condition at h
  unfold save_condition
  cases hk : kill_now with
  | true => simp [hk]
  | false =>
    rw [hk] at h
    simp only [Bool.false_or] at h
    simp [h]

/-- C2 (amended): whenever the real part of some execution unit's energy
statistic is NaN, the checkpoint condition of the loop holds (a save is
forced) and the abort condition of train.py line 181 holds as well. -/
theorem c2_nan_energy_trigger (cfg : Config) (stats : List ComplexFloat)
    (step : ℕ) (kill_now : Bool) (current_time last_save_time : ℚ)
    (h : isnan_energy_any stats = true) :
    save_condition cfg stats step kill_now current_time last_save_time = true
    ∧ abort_condition stats kill_now = true := by
  constructor
  · unfold save_condition
    simp [h]
  · unfold abort_condition
    simp [h]

/-- Witness for C2: a NaN real energy on the default configuration at step 0
fires both the save condition and the abort condition. -/
theorem c2_nan_energy_trigger_witness :
    save_condition {} [⟨FloatVal.nan, FloatVal.fin 0⟩] 0 false 0 0 = true
    ∧ abort_condition [⟨FloatVal.nan, FloatVal.fin 0⟩] false = true :=
  c2_nan_energy_trigger {} [⟨FloatVal.nan, FloatVal.fin 0⟩] 0 false 0 0 rfl

unseal Rat.sub in
/-- Counterexample for C2 as stated: an energy whose real part is positive
infinity is non-finite, yet neither the checkpoint condition nor the abort
condition holds at a non-final step with no signal and no elapsed time. -/
theorem c2_nonfinite_counterexample :
    ([⟨FloatVal.inf, FloatVal.fin 0⟩] : List ComplexFloat).any
        (fun e => !e.re.isFinite || !e.im.isFinite) = true
    ∧ save_condition { optim := { iterations := 100 } }
        [⟨FloatVal.inf, FloatVal.fin 0⟩] 0 false 0 0 = false
    ∧ abort_condition [⟨FloatVal.inf, FloatVal.fin 0⟩] false = false := by
  refine ⟨rfl, ?_, rfl⟩
  decide

/-- C3: the warm-start override forces the resolved initial step to 0 exactly
when the optimizer is `none`, a restore path is configured and it differs
from the save path; in every other combination the restored step is kept,
and in both cases the restored checkpoint state is passed through
unchanged. -/
theorem c3_warm_start_reset (P D O W : Type) (cfg : Config)
    (restored_step : ℕ) (st : CheckpointState P D O W) :
    (cfg.optim.optimizer = some OptimizerName.none →
      cfg.log.restore_path ≠ Option.none →
      cfg.log.restore_path ≠ cfg.log.save_path →
      train_loop_resolve cfg (restored_step, st) = (0, st))
    ∧ (cfg.optim.optimizer ≠ some OptimizerName.none
        ∨ cfg.log.restore_path = Option.none
        ∨ cfg.log.restore_path = cfg.log.save_path →
      train_loop_resolve cfg (restored_step, st) = (restored_step, st)) := by
  constructor
  · intro h1 h2 h3
    unfold train_loop_resolve resolve_initial_step
    rw [if_pos ⟨h1, h2, h3⟩]
  · intro h
    unfold train_loop_resolve resolve_initial_step
    rw [if_neg]
    tauto

/-- Configuration for the C3 witness: optimizer `none`, distinct restore and
save paths. -/
def c3_cfg : Config :=
  { optim := { optimizer := some OptimizerName.none }
    log := { save_path := some "runs/a", restore_path := some "runs/b" } }

/-- Witness for C3: a restored step of 500 resolves to 0 under optimizer
`none` with distinct restore/save paths, keeping the restored state. -/
theorem c3_warm_start_reset_witness :
    train_loop_resolve c3_cfg
        (500, (⟨1, 2, Option.none, 3⟩ : CheckpointState ℕ ℕ ℕ ℕ))
      = (0, (⟨1, 2, Option.none, 3⟩ : CheckpointState ℕ ℕ ℕ ℕ)) :=
  (c3_warm_start_reset ℕ ℕ ℕ ℕ c3_cfg 500 ⟨1, 2, Option.none, 3⟩).1
    rfl (by decide) (by decide)

/-- C4: the first delivery of either signal sets the stop flag and restores
the previously installed handlers for both signals; a second invocation of
the handler is the identity (the flag is set exactly once, and the handler
is a total function, so it never raises). -/
theorem c4_signal_idempotence (H : Type) (prev_int prev_term graceful : H) :
    (GracefulKiller.init prev_int prev_term graceful).kill_now = false
    ∧ (exit_gracefully
        (GracefulKiller.init prev_int prev_term graceful)).kill_now = true
    ∧ (exit_gracefully
        (GracefulKiller.init prev_int prev_term graceful)).handler_int
        = prev_int
    ∧ (exit_gracefully
        (GracefulKiller.init prev_int prev_term graceful)).handler_term
        = prev_term
    ∧ exit_gracefully
        (exit_gracefully (GracefulKiller.init prev_int prev_term graceful))
        = exit_gracefully (GracefulKiller.init prev_int prev_term graceful) :=
  ⟨rfl, rfl, rfl, rfl, rfl⟩

/-- C6 (amended): the controller call made by the main loop writes the latest
acceptance rate into window slot `(step - initial_step) mod N`; for a fresh
run (`initial_step = 0`) this is slot `step mod N`. -/
theorem c6_window_slot (step initial_step : ℕ) (width : ℚ) (N : ℕ)
    (pmove : ℚ) (pmoves : List ℚ) :
    (train_loop_update_call step initial_step width N pmove pmoves).2
        = pmoves.set ((step - initial_step) % N) pmove
    ∧ (initial_step = 0 →
      (train_loop_update_call step initial_step width N pmove pmoves).2
          = pmoves.set (step % N) pmove) := by
  have hmain : (train_loop_update_call step initial_step width N pmove
      pmoves).2 = pmoves.set ((step - initial_step) % N) pmove := by
    unfold train_loop_update_call update_mcmc_width
    dsimp only
    split
    · split <;> rfl
    · rfl
  refine ⟨hmain, fun h => ?_⟩
  rw [hmain, h, Nat.sub_zero]

/-- Witness for C6: a fresh run at global step 7 with window length 5 writes
slot 7 mod 5 = 2. -/
theorem c6_window_slot_witness :
    (train_loop_update_call 7 0 (1/10) 5 (1/2) (List.replicate 5 0)).2
      = (List.replicate 5 (0 : ℚ)).set (7 % 5) (1/2) :=
  (c6_window_slot 7 0 (1/10) 5 (1/2) (List.replicate 5 0)).2 rfl

/-- Counterexample for C6 as stated: in a run resumed at initial step 501,
the controller call at global step 501 writes slot 0, not slot
501 mod 5 = 1. -/
theorem c6_window_slot_counterexample :
    (train_loop_update_call 501 501 (1/10) 5 1 (List.replicate 5 0)).2
      ≠ (List.replicate 5 (0 : ℚ)).set (501 % 5) 1 := by
  decide

/-- C7 (amended): the abort message raised at train.py line 182 is the same
fixed string for both abort causes; the divergence outcome and the
interrupted outcome are not distinguished by the message. -/
theorem c7_abort_message_same (kill_now nan_energy : Bool)
    (h : (kill_now || nan_energy) = true) :
    train_abort_message kill_now nan_energy = some abort_line := by
  unfold train_abort_message
  rw [h]
  rfl

/-- Witness for C7: the divergence abort emits the fixed abort line. -/
theorem c7_abort_message_same_witness :
    train_abort_message false true = some abort_line :=
  c7_abort_message_same false true rfl

/-- Counterexample for C7 as stated: the message emitted on a divergence
abort equals the message emitted on a signal abort. -/
theorem c7_abort_message_counterexample :
    train_abort_message false true = train_abort_message true false
    ∧ (train_abort_message false true).isSome = true :=
  ⟨rfl, rfl⟩

/-- C8 (amended): whenever the save condition triggers, the internal
last-save time is set to the current time before the checkpoint write is
attempted, hence regardless of whether that write succeeds. -/
theorem c8_last_save_time_update (cfg : Config) (stats : List ComplexFloat)
    (step : ℕ) (kill_now : Bool) (current_time last_save_time : ℚ)
    (save_ok : Bool)
    (h : save_condition cfg stats step kill_now current_time last_save_time
      = true) :
    (post_step_check cfg stats step kill_now current_time last_save_time
      save_ok).new_last_save = current_time := by
  unfold post_step_check
  simp [h]

/-- Configuration shared by the C8 witness and counterexample: short save
interval, small step multiple, a configured save location. -/
def c8_cfg : Config :=
  { optim := { iterations := 100 }
    log := { save_path := some "ckpt", save_time_interval := 10,
             save_step_interval := 5 } }

unseal Rat.sub in
/-- Witness for C8: at step 4 with 20 seconds elapsed the save condition
triggers, and the last-save time becomes the current time even though the
checkpoint write fails. -/
theorem c8_last_save_time_update_witness :
    (post_step_check c8_cfg [⟨FloatVal.fin 1, FloatVal.fin 0⟩] 4 false 20 0
      false).new_last_save = 20 :=
  c8_last_save_time_update c8_cfg [⟨FloatVal.fin 1, FloatVal.fin 0⟩] 4 false
    20 0 false (by decide)

unseal Rat.sub in
/-- Counterexample for C8 as stated: a failing checkpoint write
(`save_raised`) still leaves the last-save time changed from 0 to 20. -/
theorem c8_last_save_time_counterexample :
    (post_step_check c8_cfg [⟨FloatVal.fin 1, FloatVal.fin 0⟩] 4 false 20 0
      false).save_raised = true
    ∧ (post_step_check c8_cfg [⟨FloatVal.fin 1, FloatVal.fin 0⟩] 4 false 20 0
      false).persisted = false
    ∧ (post_step_check c8_cfg [⟨FloatVal.fin 1, FloatVal.fin 0⟩] 4 false 20 0
      false).new_last_save ≠ 0 := by
  refine ⟨by decide, by decide, by decide⟩

theorem burn_in_loop_spec {α : Type} (f : α → α) :
    ∀ (n : ℕ) (d : α),
      burn_in_loop f n d = (f^[n] d, List.replicate n BurnEvent.sampler) := by
  intro n
  induction n with
  | zero => intro d; rfl
  | succ k ih =>
    intro d
    simp only [burn_in_loop, ih (f d), Function.iterate_succ_apply,
      List.replicate_succ]

/-- C9: the burn-in block runs exactly when the resolved initial step is 0;
it then invokes the sampler exactly `burn_in` times and records no
controller invocation and no checkpoint save, leaving the threaded state at
`f^[burn_in] d`. -/
theorem c9_burn_in_gating (α : Type) (initial_step burn_in : ℕ)
    (f : α → α) (d : α) :
    ((burn_in_phase initial_step burn_in f d).2.count BurnEvent.sampler
        = if initial_step = 0 then burn_in else 0)
    ∧ (burn_in_phase initial_step burn_in f d).2.count BurnEvent.controller
        = 0
    ∧ (burn_in_phase initial_step burn_in f d).2.count BurnEvent.save = 0
    ∧ (burn_in_phase initial_step burn_in f d).1
        = if initial_step = 0 then f^[burn_in] d else d := by
  unfold burn_in_phase
  by_cases h : initial_step = 0
  · simp [h, burn_in_loop_spec, List.count_replicate]
  · simp [h]

/-- Configuration for the C1 cadence scenario: a 10-second minimum interval,
a step multiple of 5, a configured save location, and a 12-iteration
budget so that none of steps 0..9 is final. -/
def c1_cfg : Config :=
  { optim := { iterations := 12 }
    log := { save_path := some "ckpt", save_time_interval := 10,
             save_step_interval := 5 } }

/-- Configuration for the C1 forced-save scenario: as `c1_cfg` but with a
5-iteration budget, so step 4 is the final iteration and forces a save. -/
def c1_forced_cfg : Config :=
  { optim := { iterations := 5 }
    log := { save_path := some "ckpt", save_time_interval := 10,
             save_step_interval := 5 } }

/-- Statistics stream for the C1 scenario: one unit with finite energy. -/
def c1_stats : ℕ → List ComplexFloat :=
  fun _ => [⟨FloatVal.fin 1, FloatVal.fin 0⟩]

/-- Clock stream for the C1 scenario: every call happens 3 seconds after the
initial last-save time 0. -/
def c1_clock : ℕ → ℚ := fun _ => 3

unseal Rat.sub in
/-- C1 (amended): a periodic (non-forced) checkpoint is persisted at a step
if and only if a save location is configured, strictly more than
`save_time_interval` seconds have elapsed since the last save, and
`(step + 1) mod save_step_interval = 0`.  With a 10-second interval and step
multiple 5, ten calls at steps 0..9 all within 3 seconds of the last save
persist nothing, while the forced save at final step 4 persists. -/
theorem c1_periodic_save_policy :
    (∀ (cfg : Config) (stats : List ComplexFloat) (step : ℕ)
        (current_time last_save_time : ℚ),
      isnan_energy_any stats = false →
      (step : ℤ) ≠ (cfg.optim.iterations : ℤ) - 1 →
      ((post_step_check cfg stats step false current_time last_save_time
          true).persisted = true ↔
        (cfg.log.save_path.isSome = true
          ∧ (cfg.log.save_time_interval : ℚ)
              < current_time - last_save_time
          ∧ (step + 1) % cfg.log.save_step_interval = 0)))
    ∧ ((run_train c1_cfg c1_stats c1_clock (fun _ => false) (fun _ => true)
          0 0).1.take 10).map (fun p => p.2.persisted)
        = List.replicate 10 false
    ∧ (run_train c1_forced_cfg c1_stats c1_clock (fun _ => false)
          (fun _ => true) 0 0).1.map (fun p => (p.1, p.2.persisted))
        = [(0, false), (1, false), (2, false), (3, false), (4, true)] := by
  refine ⟨?_, by decide, by decide⟩
  intro cfg stats step current_time last_save_time h1 h2
  unfold post_step_check save_condition save_checkpoint_persists
  simp [h1, h2, Bool.and_eq_true, decide_eq_true_iff]
  tauto

unseal Rat.sub in
/-- Witness for C1: with 20 seconds elapsed against a 10-second interval at
step 4 (multiple of 5 minus one) and a configured location, the periodic
save persists. -/
theorem c1_periodic_save_policy_witness :
    (post_step_check c1_cfg (c1_stats 0) 4 false 20 0 true).persisted
      = true :=
  (c1_periodic_save_policy.1 c1_cfg (c1_stats 0) 4 20 0 (by decide)
    (by decide)).mpr ⟨by decide, by decide, by decide⟩

unseal Rat.sub in
/-- Counterexample for C1 as stated: at step 4 with exactly 10 seconds
elapsed, a configured location and the step-multiple condition holding, the
elapsed time is at least the interval, yet no save is persisted, because the
code requires strictly more than the interval. -/
theorem c1_periodic_save_counterexample :
    c1_cfg.log.save_path.isSome = true
    ∧ (c1_cfg.log.save_time_interval : ℚ) ≤ (10 : ℚ) - 0
    ∧ (4 + 1) % c1_cfg.log.save_step_interval = 0
    ∧ isnan_energy_any (c1_stats 0) = false
    ∧ (4 : ℤ) ≠ (c1_cfg.optim.iterations : ℤ) - 1
    ∧ (post_step_check c1_cfg (c1_stats 0) 4 false 10 0 true).persisted
        = false := by
  refine ⟨by decide, by decide, by decide, by decide, by decide, by decide⟩

theorem run_loop_abort (cfg : Config) (stats : ℕ → List ComplexFloat)
    (clock : ℕ → ℚ) (kill : ℕ → Bool) (save_ok : ℕ → Bool) (i : ℕ)
    (habort : abort_condition (stats i) (kill i) = true) :
    ∀ (fuel step : ℕ) (last : ℚ), step ≤ i → i < step + fuel →
      (∀ j, step ≤ j → j < i → abort_condition (stats j) (kill j) = false) →
      (∀ j, step ≤ j → j ≤ i → save_ok j = true) →
      ∃ pre o,
        run_loop cfg stats clock kill save_ok step fuel last
            = (pre ++ [(i, o)], RunEnd.aborted i)
          ∧ pre.map Prod.fst = List.range' step (i - step)
          ∧ o.save_branch = true
          ∧ o.persisted = cfg.log.save_path.isSome
          ∧ o.aborted = true := by
  intro fuel
  induction fuel with
  | zero =>
    intro step last h1 h2 h3 h4
    omega
  | succ fuel ih =>
    intro step last h1 h2 h3 h4
    by_cases hstep : step = i
    · subst hstep
      have hso : save_ok step = true := h4 step (le_refl step) (le_refl step)
      have hsb : save_condition cfg (stats step) step (kill step) (clock step)
          last = true :=
        abort_condition_save cfg (stats step) step (kill step) (clock step)
          last habort
      refine ⟨[], post_step_check cfg (stats step) step (kill step)
        (clock step) last (save_ok step), ?_, by simp, ?_, ?_, ?_⟩
      · simp only [run_loop]
        rw [show (post_step_check cfg (stats step) step (kill step)
            (clock step) last (save_ok step)).save_raised = false by
          simp [post_step_check, hso]]
        rw [show (post_step_check cfg (stats step) step (kill step)
            (clock step) last (save_ok step)).aborted = true by
          simp [post_step_check, habort]]
        simp
      · simp [post_step_check, hsb]
      · simp [post_step_check, hsb, hso, save_checkpoint_persists]
      · simp [post_step_check, habort]
    · have hlt : step < i := by omega
      have h0 : abort_condition (stats step) (kill step) = false :=
        h3 step (le_refl step) hlt
      have hso : save_ok step = true := h4 step (le_refl step) (by omega)
      obtain ⟨pre, oi, e1, e2, e3, e4, e5⟩ :=
        ih (step + 1)
          (post_step_check cfg (stats step) step (kill step) (clock step)
            last (save_ok step)).new_last_save
          (by omega) (by omega)
          (fun j hj1 hj2 => h3 j (by omega) hj2)
          (fun j hj1 hj2 => h4 j (by omega) hj2)
      refine ⟨(step, post_step_check cfg (stats step) step (kill step)
        (clock step) last (save_ok step)) :: pre, oi, ?_, ?_, e3, e4, e5⟩
      · simp only [run_loop]
        rw [show (post_step_check cfg (stats step) step (kill step)
            (clock step) last (save_ok step)).save_raised = false by
          simp [post_step_check, hso]]
        rw [show (post_step_check cfg (stats step) step (kill step)
            (clock step) last (save_ok step)).aborted = false by
          simp [post_step_check, h0]]
        simp only [if_false, Bool.false_eq_true, ite_false]
        rw [e1]
        simp
      · simp only [List.map_cons, e2]
        have hsub : i - step = (i - (step + 1)) + 1 := by omega
        rw [hsub, List.range'_succ]

/-- C5: if the loop reaches iteration `i` (no earlier iteration aborted or
failed its checkpoint write) and the abort condition holds at `i` — a NaN
real energy or the termination-signal flag — then the run ends with the
abort at step `i`, the save branch is taken at step `i` (persisting exactly
when a save location is configured), and no iteration beyond `i` is
executed: the trace is exactly steps `initial_step .. i`. -/
theorem c5_divergence_abort (cfg : Config) (stats : ℕ → List ComplexFloat)
    (clock : ℕ → ℚ) (kill : ℕ → Bool) (save_ok : ℕ → Bool)
    (initial_step : ℕ) (t0 : ℚ) (i : ℕ)
    (hinit : initial_step ≤ i) (hlt : i < cfg.optim.iterations)
    (hpre : ∀ j < i, initial_step ≤ j →
      abort_condition (stats j) (kill j) = false)
    (hok : ∀ j ≤ i, initial_step ≤ j → save_ok j = true)
    (habort : abort_condition (stats i) (kill i) = true) :
    ∃ pre o,
      run_train cfg stats clock kill save_ok initial_step t0
          = (pre ++ [(i, o)], RunEnd.aborted i)
        ∧ pre.map Prod.fst = List.range' initial_step (i - initial_step)
        ∧ o.save_branch = true
        ∧ o.persisted = cfg.log.save_path.isSome
        ∧ o.aborted = true := by
  unfold run_train
  exact run_loop_abort cfg stats clock kill save_ok i habort
    (cfg.optim.iterations - initial_step) initial_step t0 hinit (by omega)
    (fun j hj1 hj2 => hpre j hj2 hj1)
    (fun j hj1 hj2 => hok j hj2 hj1)

/-- Statistics stream for the C5 witness: a NaN real energy exactly at
iteration 7. -/
def c5_stats : ℕ → List ComplexFloat :=
  fun j => if j = 7 then [⟨FloatVal.nan, FloatVal.fin 0⟩]
    else [⟨FloatVal.fin 1, FloatVal.fin 0⟩]

/-- Configuration for the C5 witness: 20 iterations, a configured save
location, default cadence. -/
def c5_cfg : Config :=
  { optim := { iterations := 20 }
    log := { save_path := some "ckpt" } }

/-- Witness for C5: with NaN energy at iteration 7 of a 20-iteration run the
loop aborts at step 7, saves there, and executes exactly steps 0..7. -/
theorem c5_divergence_abort_witness :
    ∃ pre o,
      run_train c5_cfg c5_stats (fun j => (j : ℚ)) (fun _ => false)
          (fun _ => true) 0 0
          = (pre ++ [(7, o)], RunEnd.aborted 7)
        ∧ pre.map Prod.fst = List.range' 0 (7 - 0)
        ∧ o.save_branch = true
        ∧ o.persisted = c5_cfg.log.save_path.isSome
        ∧ o.aborted = true :=
  c5_divergence_abort c5_cfg c5_stats (fun j => (j : ℚ)) (fun _ => false)
    (fun _ => true) 0 0 7 (by decide) (by decide) (by decide)
    (by decide) (by decide)

theorem convertEntries_skip (flds : List (String × PyType × Bool))
    (f : String) (v : PyVal) (rest : List (String × PyVal))
    (h : fieldLookup flds f = Option.none) :
    convertEntries flds ((f, v) :: rest) = convertEntries flds rest := by
  rw [convertEntries]
  split
  · rfl
  · rename_i heq
    rw [h] at heq
    cases heq
  · rename_i heq
    rw [h] at heq
    cases heq

theorem convertEntries_prim (flds : List (String × PyType × Bool))
    (f : String) (v : PyVal) (rest : List (String × PyVal))
    (m : String) (b : Bool)
    (h : fieldLookup flds f = some (.prim m, b)) :
    convertEntries flds ((f, v) :: rest)
      = match convertEntries flds rest with
        | .error e => .error e
        | .ok tail => .ok ((f, v) :: tail) := by
  rw [convertEntries]
  split
  · rename_i heq
    rw [h] at heq
    cases heq
  · rfl
  · rename_i heq
    rw [h] at heq
    cases heq

theorem convertEntries_dc (flds : List (String × PyType × Bool))
    (f : String) (v : PyVal) (rest : List (String × PyVal))
    (n2 : String) (flds2 : List (String × PyType × Bool)) (b : Bool)
    (h : fieldLookup flds f = some (.dataclass n2 flds2, b)) :
    convertEntries flds ((f, v) :: rest)
      = match from_dict (.dataclass n2 flds2) v with
        | .error e => .error e
        | .ok cv =>
          match convertEntries flds rest with
          | .error e => .error e
          | .ok tail => .ok ((f, cv) :: tail) := by
  rw [convertEntries]
  split
  · rename_i heq
    rw [h] at heq
    cases heq
  · rename_i heq
    rw [h] at heq
    cases heq
  · rename_i heq
    rw [h] at heq
    injection heq with heq2
    injection heq2 with heq3 heq4
    cases heq3
    rfl

theorem convertEntries_filter (flds : List (String × PyType × Bool)) :
    ∀ entries : List (String × PyVal),
      convertEntries flds entries
        = convertEntries flds
            (entries.filter fun e => (fieldLookup flds e.1).isSome) := by
  intro entries
  induction entries with
  | nil => rfl
  | cons e rest ih =>
    obtain ⟨f, v⟩ := e
    cases h : fieldLookup flds f with
    | none =>
      rw [List.filter_cons]
      simp only [h, Option.isSome_none, Bool.false_eq_true, if_false]
      rw [convertEntries_skip flds f v rest h, ih]
    | some tyb =>
      obtain ⟨ty, b⟩ := tyb
      rw [List.filter_cons]
      simp only [h, Option.isSome_some, if_true]
      cases ty with
      | prim m =>
        rw [convertEntries_prim flds f v rest m b h,
          convertEntries_prim flds f v _ m b h, ih]
      | dataclass n2 flds2 =>
        rw [convertEntries_dc flds f v rest n2 flds2 b h,
          convertEntries_dc flds f v _ n2 flds2 b h, ih]

/-- C10: for every target dataclass and input dictionary, `from_dict` ignores
dictionary keys that are not fields of the dataclass (converting the
filtered dictionary gives the identical result, so extra keys never cause
failure), and every error it returns is a `ValueError` whose message names
the target class — no other exception kind escapes. -/
theorem c10_from_dict_contract :
    (∀ (name : String) (flds : List (String × PyType × Bool))
        (entries : List (String × PyVal)),
      from_dict (.dataclass name flds) (.dict entries)
        = from_dict (.dataclass name flds)
            (.dict (entries.filter fun e => (fieldLookup flds e.1).isSome)))
    ∧ (∀ (ty : PyType) (v : PyVal) (e : PyErr), from_dict ty v = .error e →
      ∃ rest, e = .valueError
        ("Error converting dictionary to " ++ ty.name ++ ": " ++ rest)) := by
  constructor
  · intro name flds entries
    rw [from_dict, from_dict, ← convertEntries_filter flds entries]
  · intro ty v e h
    cases ty with
    | prim n =>
      rw [from_dict] at h
      injection h with h2
      refine ⟨(PyErr.typeError
        ("fields expects a dataclass, got " ++ n)).msg, ?_⟩
      rw [← h2]
      rfl
    | dataclass n flds =>
      cases v with
      | atom k =>
        rw [from_dict] at h
        · injection h with h2
          refine ⟨(PyErr.typeError "argument is not iterable").msg, ?_⟩
          rw [← h2]
          rfl
        · intro entries hc
          cases hc
      | obj cn kw =>
        rw [from_dict] at h
        · injection h with h2
          refine ⟨(PyErr.typeError "argument is not iterable").msg, ?_⟩
          rw [← h2]
          rfl
        · intro entries hc
          cases hc
      | dict entries =>
        rw [from_dict] at h
        split at h
        · rename_i e2 heq
          injection h with h2
          refine ⟨e2.msg, ?_⟩
          rw [← h2]
          rfl
        · split at h
          · rename_i e2 heq
            injection h with h2
            refine ⟨e2.msg, ?_⟩
            rw [← h2]
            rfl
          · cases h

/-- Witness for C10: converting a non-dict value to a dataclass errs with a
`ValueError` naming the class, and the error-shape conjunct applies to it. -/
theorem c10_from_dict_contract_witness :
    from_dict (.dataclass "System" [("flux", .prim "int", true)]) (.atom 3)
      = .error (.valueError
        "Error converting dictionary to System: argument is not iterable")
    ∧ ∃ rest, (PyErr.valueError
        "Error converting dictionary to System: argument is not iterable")
      = .valueError ("Error converting dictionary to "
          ++ (PyType.dataclass "System" [("flux", .prim "int", true)]).name
          ++ ": " ++ rest) := by
  have h1 : from_dict (.dataclass "System" [("flux", .prim "int", true)])
      (.atom 3) = .error (.valueError
        "Error converting dictionary to System: argument is not iterable") := by
    rw [from_dict]
    · rfl
    · intro entries hc
      cases hc
  exact ⟨h1, c10_from_dict_contract.2 _ _ _ h1⟩

end DeepHall
